import Mathlib

/-!
Shallow embedding of `src/main.rs` of the cowin-slack repository: a
fetch / filter / notify pipeline that polls a vaccination-slot API and
posts viable slots to a messaging webhook.

Rust `i32` fields are modelled as `Int` (no arithmetic is performed on
them, only comparisons, so no overflow is involved), `Vec` as `List`,
`String` as `String`.  The HTTP effects of the fetcher and the notifier
are modelled by passing the transport outcomes in explicitly: a GET
outcome (status + body, or a transport error) for the fetcher, and for
each POST a function from the JSON payload to the transport outcome.
-/

namespace Cowin

/-- `struct Session` of `src/main.rs` (lines 27-35). -/
structure Session where
  date : String
  available_capacity : Int
  min_age_limit : Int
  vaccine : String
  available_capacity_dose1 : Int
  available_capacity_dose2 : Int
deriving DecidableEq, Repr

/-- `struct Center` of `src/main.rs` (lines 17-25). -/
structure Center where
  center_id : Int
  name : String
  address : String
  pincode : Int
  fee_type : String
  sessions : List Session
deriving DecidableEq, Repr

/-- `struct Resp` of `src/main.rs` (lines 12-15). -/
structure Resp where
  centers : List Center
deriving DecidableEq, Repr

/-- `struct Slot` of `src/main.rs` (lines 37-47). -/
structure Slot where
  center : String
  address : String
  date : String
  available_capacity : Int
  available_capacity_dose1 : Int
  available_capacity_dose2 : Int
  min_age_limit : Int
  vaccine : String
deriving DecidableEq, Repr

/-- The `Slot` struct literal built at `src/main.rs` lines 91-100:
every field is copied verbatim from the session, and `center`/`address`
from the parent center. -/
def mkSlot (center : Center) (session : Session) : Slot :=
  { center := center.name
    address := center.address
    date := session.date
    vaccine := session.vaccine
    available_capacity := session.available_capacity
    available_capacity_dose1 := session.available_capacity_dose1
    available_capacity_dose2 := session.available_capacity_dose2
    min_age_limit := session.min_age_limit }

/-- The body of the inner `for session in center.sessions.iter()` loop of
`check_viable_slots` (`src/main.rs` lines 84-102): the two `continue`
guards followed by the capacity check and the push.  `slots` is the
accumulator vector; pushing is appending one element. -/
def sessionStep (only_18plus only_first_dose : Bool) (center : Center)
    (slots : List Slot) (session : Session) : List Slot :=
  if only_18plus ∧ session.min_age_limit > 18 then slots
  else if only_first_dose ∧ session.available_capacity_dose1 < 5 then slots
  else if session.available_capacity > 0 then slots ++ [mkSlot center session]
  else slots

/-- `check_viable_slots` (`src/main.rs` lines 80-106): a fold over the
centers, folding over each center's sessions, starting from the empty
vector.  The loop body is `sessionStep`. -/
def check_viable_slots (api_resp : Resp) (only_18plus only_first_dose : Bool) : List Slot :=
  api_resp.centers.foldl
    (fun slots center => center.sessions.foldl (sessionStep only_18plus only_first_dose center) slots)
    []

/-- Spec-side viability predicate, for the refinement comparison: a
session passes when the age condition (if `only_18plus`), the dose-1
condition (if `only_first_dose`) and the positive-capacity condition all
hold. -/
def sessionViable (only_18plus only_first_dose : Bool) (session : Session) : Bool :=
  (!only_18plus || decide (session.min_age_limit ≤ 18))
    && (!only_first_dose || decide (5 ≤ session.available_capacity_dose1))
    && decide (0 < session.available_capacity)

/-- Spec-side formulation of the filter: centers in order, each center
contributing its viable sessions in order, mapped to slots. -/
def viableSlotsSpec (api_resp : Resp) (only_18plus only_first_dose : Bool) : List Slot :=
  api_resp.centers.flatMap
    (fun c => (c.sessions.filter (sessionViable only_18plus only_first_dose)).map (mkSlot c))

theorem sessionStep_eq (a f : Bool) (c : Center) (slots : List Slot) (s : Session) :
    sessionStep a f c slots s =
      if sessionViable a f s then slots ++ [mkSlot c s] else slots := by
  cases a <;> cases f <;>
    simp only [sessionStep, sessionViable, Bool.not_true, Bool.not_false, Bool.false_or,
      Bool.true_or, Bool.true_and, Bool.false_and, Bool.and_self] <;>
    split_ifs <;> simp_all <;> omega

theorem foldl_sessionStep (a f : Bool) (c : Center) :
    ∀ (ss : List Session) (acc : List Slot),
      ss.foldl (sessionStep a f c) acc =
        acc ++ (ss.filter (sessionViable a f)).map (mkSlot c) := by
  intro ss
  induction ss with
  | nil => intro acc; simp
  | cons s rest ih =>
    intro acc
    rw [List.foldl_cons, sessionStep_eq, List.filter_cons]
    cases h : sessionViable a f s <;> simp [h, ih]

theorem check_viable_slots_eq (api_resp : Resp) (a f : Bool) :
    check_viable_slots api_resp a f = viableSlotsSpec api_resp a f := by
  unfold check_viable_slots viableSlotsSpec
  suffices h : ∀ (cs : List Center) (acc : List Slot),
      cs.foldl (fun slots center => center.sessions.foldl (sessionStep a f center) slots) acc =
        acc ++ cs.flatMap (fun c => (c.sessions.filter (sessionViable a f)).map (mkSlot c)) by
    simpa using h api_resp.centers []
  intro cs
  induction cs with
  | nil => intro acc; simp
  | cons c rest ih =>
    intro acc
    rw [List.foldl_cons, foldl_sessionStep, List.flatMap_cons, ih, List.append_assoc]

theorem mem_check_viable_slots {slot : Slot} {api_resp : Resp} {a f : Bool} :
    slot ∈ check_viable_slots api_resp a f ↔
      ∃ c ∈ api_resp.centers, ∃ s ∈ c.sessions, sessionViable a f s = true ∧ slot = mkSlot c s := by
  rw [check_viable_slots_eq]
  unfold viableSlotsSpec
  simp only [List.mem_flatMap, List.mem_map, List.mem_filter]
  constructor
  · rintro ⟨c, hc, s, ⟨hs, hv⟩, rfl⟩
    exact ⟨c, hc, s, hs, hv, rfl⟩
  · rintro ⟨c, hc, s, hs, hv, rfl⟩
    exact ⟨c, hc, s, ⟨hs, hv⟩, rfl⟩

theorem capacity_pos_of_mem {slot : Slot} {api_resp : Resp} {a f : Bool}
    (h : slot ∈ check_viable_slots api_resp a f) : 0 < slot.available_capacity := by
  obtain ⟨c, -, s, -, hv, rfl⟩ := mem_check_viable_slots.mp h
  have := (Bool.and_eq_true _ _).mp hv
  simpa [mkSlot] using of_decide_eq_true this.2

/-- Claim C1: for every fetched response and every setting of the two
flags, a session whose `available_capacity` is at most 0 never appears
in the output of `check_viable_slots`.  Since every emitted slot copies
the session's `available_capacity` verbatim, the slot such a session
would produce cannot be a member of the output. -/
theorem c1_zero_capacity_never_output (api_resp : Resp) (a f : Bool) (c : Center) (s : Session)
    (h : s.available_capacity ≤ 0) :
    mkSlot c s ∉ check_viable_slots api_resp a f := by
  intro hmem
  have := capacity_pos_of_mem hmem
  simp only [mkSlot] at this
  omega

def sampleSession : Session :=
  { date := "10-05-2021", available_capacity := 0, min_age_limit := 18,
    vaccine := "COVISHIELD", available_capacity_dose1 := 0, available_capacity_dose2 := 0 }

def sampleCenter : Center :=
  { center_id := 1, name := "A", address := "Addr", pincode := 110001,
    fee_type := "Free", sessions := [sampleSession] }

def sampleResp : Resp := { centers := [sampleCenter] }

theorem c1_witness :
    sampleSession.available_capacity ≤ 0 ∧
      mkSlot sampleCenter sampleSession ∉ check_viable_slots sampleResp false false :=
  ⟨by decide,
   c1_zero_capacity_never_output sampleResp false false sampleCenter sampleSession (by decide)⟩

/-- Rewrite every session of every center through `sT`, leaving the
other center fields untouched. -/
def mapSessions (sT : Session → Session) (api_resp : Resp) : Resp :=
  { centers := api_resp.centers.map
      (fun c => { c with sessions := c.sessions.map sT }) }

/-- Rewrite every session's `min_age_limit` through `g`, leaving all
other fields untouched. -/
def mapMinAge (g : Int → Int) (api_resp : Resp) : Resp :=
  mapSessions (fun s => { s with min_age_limit := g s.min_age_limit }) api_resp

/-- Rewrite every session's `available_capacity_dose1` through `g`,
leaving all other fields untouched. -/
def mapDose1 (g : Int → Int) (api_resp : Resp) : Resp :=
  mapSessions (fun s => { s with available_capacity_dose1 := g s.available_capacity_dose1 }) api_resp

theorem filter_map_comm (p : Session → Bool) (sT : Session → Session) (slT : Slot → Slot)
    (c : Center) (h1 : ∀ s, p (sT s) = p s) (h2 : ∀ s, mkSlot c (sT s) = slT (mkSlot c s)) :
    ∀ l : List Session,
      ((l.map sT).filter p).map (mkSlot c) = ((l.filter p).map (mkSlot c)).map slT := by
  intro l
  induction l with
  | nil => simp
  | cons s rest ih =>
    simp only [List.map_cons, List.filter_cons, h1 s]
    cases hp : p s
    · simpa using ih
    · simp only [if_pos rfl, List.map_cons, h2 s, ih, if_true]

theorem check_viable_slots_mapSessions (sT : Session → Session) (slT : Slot → Slot) (a f : Bool)
    (h1 : ∀ s, sessionViable a f (sT s) = sessionViable a f s)
    (h2 : ∀ c s, mkSlot c (sT s) = slT (mkSlot c s)) (api_resp : Resp) :
    check_viable_slots (mapSessions sT api_resp) a f =
      (check_viable_slots api_resp a f).map slT := by
  rw [check_viable_slots_eq, check_viable_slots_eq]
  unfold viableSlotsSpec mapSessions
  obtain ⟨cs⟩ := api_resp
  simp only
  induction cs with
  | nil => simp
  | cons c rest ih =>
    simp only [List.map_cons, List.flatMap_cons, List.map_append]
    rw [ih]
    have hc : mkSlot { c with sessions := c.sessions.map sT } = mkSlot c := by
      funext s; rfl
    simp only [hc]
    rw [filter_map_comm (sessionViable a f) sT slT c h1 (h2 c) c.sessions]

/-- Claim C2: with `only_18plus = true` a session with `min_age_limit`
strictly greater than 18 is excluded (its slot is never in the output);
with `only_18plus = false` the `min_age_limit` field has no influence on
inclusion: rewriting every session's age limit through an arbitrary
function only rewrites the same field of the slots, selecting exactly
the same sessions. -/
theorem c2_age_filter (api_resp : Resp) (f : Bool) :
    (∀ (c : Center) (s : Session), 18 < s.min_age_limit →
        mkSlot c s ∉ check_viable_slots api_resp true f) ∧
    (∀ g : Int → Int,
        check_viable_slots (mapMinAge g api_resp) false f =
          (check_viable_slots api_resp false f).map
            (fun sl => { sl with min_age_limit := g sl.min_age_limit })) := by
  constructor
  · intro c s hage hmem
    obtain ⟨c2, -, s2, -, hv, heq⟩ := mem_check_viable_slots.mp hmem
    have hv1 := ((Bool.and_eq_true _ _).mp ((Bool.and_eq_true _ _).mp hv).1).1
    simp only [Bool.not_true, Bool.false_or] at hv1
    have hle : s2.min_age_limit ≤ 18 := of_decide_eq_true hv1
    have : s.min_age_limit = s2.min_age_limit := congrArg Slot.min_age_limit heq
    omega
  · intro g
    exact check_viable_slots_mapSessions
      (fun s => { s with min_age_limit := g s.min_age_limit })
      (fun sl => { sl with min_age_limit := g sl.min_age_limit })
      false f (fun s => rfl) (fun c s => rfl) api_resp

def ageSession : Session := { sampleSession with min_age_limit := 45 }

theorem c2_witness :
    18 < ageSession.min_age_limit ∧
      mkSlot sampleCenter ageSession ∉ check_viable_slots sampleResp true false :=
  ⟨by decide,
   (c2_age_filter sampleResp false).1 sampleCenter ageSession (by decide)⟩

/-- Claim C3: with `only_first_dose = true` a session with
`available_capacity_dose1` strictly less than 5 is excluded; with
`only_first_dose = false` the dose-1 capacity has no influence on
inclusion (rewriting it through an arbitrary function only rewrites the
same field of the slots). -/
theorem c3_dose1_filter (api_resp : Resp) (a : Bool) :
    (∀ (c : Center) (s : Session), s.available_capacity_dose1 < 5 →
        mkSlot c s ∉ check_viable_slots api_resp a true) ∧
    (∀ g : Int → Int,
        check_viable_slots (mapDose1 g api_resp) a false =
          (check_viable_slots api_resp a false).map
            (fun sl => { sl with available_capacity_dose1 := g sl.available_capacity_dose1 })) := by
  constructor
  · intro c s hdose hmem
    obtain ⟨c2, -, s2, -, hv, heq⟩ := mem_check_viable_slots.mp hmem
    have hv1 := ((Bool.and_eq_true _ _).mp ((Bool.and_eq_true _ _).mp hv).1).2
    simp only [Bool.not_true, Bool.false_or] at hv1
    have hle : 5 ≤ s2.available_capacity_dose1 := of_decide_eq_true hv1
    have : s.available_capacity_dose1 = s2.available_capacity_dose1 :=
      congrArg Slot.available_capacity_dose1 heq
    omega
  · intro g
    exact check_viable_slots_mapSessions
      (fun s => { s with available_capacity_dose1 := g s.available_capacity_dose1 })
      (fun sl => { sl with available_capacity_dose1 := g sl.available_capacity_dose1 })
      a false (fun s => rfl) (fun c s => rfl) api_resp

def capSession : Session := { sampleSession with available_capacity := 10 }

theorem c3_witness :
    capSession.available_capacity_dose1 < 5 ∧
      mkSlot sampleCenter capSession ∉ check_viable_slots sampleResp false true :=
  ⟨by decide,
   (c3_dose1_filter sampleResp false).1 sampleCenter capSession (by decide)⟩

/-- All sessions of the response flattened to slots in input order
(centers outer, sessions inner), with no filtering. -/
def all_slots (api_resp : Resp) : List Slot :=
  api_resp.centers.flatMap (fun c => c.sessions.map (mkSlot c))

theorem flatMap_sublist {α β : Type} (l : List α) (f g : α → List β)
    (h : ∀ a, List.Sublist (f a) (g a)) : List.Sublist (l.flatMap f) (l.flatMap g) := by
  induction l with
  | nil => simp
  | cons a rest ih =>
    simp only [List.flatMap_cons]
    exact (h a).append ih

/-- Claim C4: the output of `check_viable_slots` lists the surviving
sessions in exactly the input order: it is a sublist (order-preserving
selection) of the full in-order flattening of the response, centers in
their original order and sessions within a center in their original
order. -/
theorem c4_order_preserved (api_resp : Resp) (a f : Bool) :
    List.Sublist (check_viable_slots api_resp a f) (all_slots api_resp) := by
  rw [check_viable_slots_eq]
  unfold viableSlotsSpec all_slots
  refine flatMap_sublist _ _ _ (fun c => ?_)
  exact (List.filter_sublist c.sessions).map (mkSlot c)

/-- Claim C8: `check_viable_slots` is pure and total: it always returns
a list (no failure branch exists), and two runs on equal inputs with the
same flags return the same output. -/
theorem c8_pure_deterministic (resp₁ resp₂ : Resp) (a f : Bool) (h : resp₁ = resp₂) :
    (∃ out : List Slot, check_viable_slots resp₁ a f = out) ∧
      check_viable_slots resp₁ a f = check_viable_slots resp₂ a f :=
  ⟨⟨check_viable_slots resp₁ a f, rfl⟩, by rw [h]⟩

theorem c8_witness :
    sampleResp = sampleResp ∧
      check_viable_slots sampleResp true true = check_viable_slots sampleResp true true :=
  ⟨rfl, (c8_pure_deterministic sampleResp sampleResp true true rfl).2⟩

/-- Claim C9: `check_viable_slots` is complete and field-faithful: it
equals the flatten-filter-map formulation (so every session passing all
active conditions contributes exactly one slot, in place), and the slot
built from a center and a session copies every field verbatim. -/
theorem c9_complete_field_faithful (api_resp : Resp) (a f : Bool) :
    check_viable_slots api_resp a f =
        api_resp.centers.flatMap
          (fun c => (c.sessions.filter (sessionViable a f)).map (mkSlot c)) ∧
      ∀ (c : Center) (s : Session),
        (mkSlot c s).date = s.date ∧
        (mkSlot c s).available_capacity = s.available_capacity ∧
        (mkSlot c s).available_capacity_dose1 = s.available_capacity_dose1 ∧
        (mkSlot c s).available_capacity_dose2 = s.available_capacity_dose2 ∧
        (mkSlot c s).min_age_limit = s.min_age_limit ∧
        (mkSlot c s).vaccine = s.vaccine ∧
        (mkSlot c s).center = c.name ∧
        (mkSlot c s).address = c.address :=
  ⟨check_viable_slots_eq api_resp a f,
   fun _ _ => ⟨rfl, rfl, rfl, rfl, rfl, rfl, rfl, rfl⟩⟩

theorem sessionViable_age_mono (f : Bool) (s : Session)
    (h : sessionViable true f s = true) : sessionViable false f s = true := by
  simp only [sessionViable, Bool.not_true, Bool.not_false, Bool.false_or, Bool.true_or,
    Bool.and_eq_true] at h ⊢
  exact ⟨⟨trivial, h.1.2⟩, h.2⟩

theorem sessionViable_dose_mono (a : Bool) (s : Session)
    (h : sessionViable a true s = true) : sessionViable a false s = true := by
  simp only [sessionViable, Bool.not_true, Bool.not_false, Bool.false_or, Bool.true_or,
    Bool.and_eq_true] at h ⊢
  exact ⟨⟨h.1.1, trivial⟩, h.2⟩

/-- Claim C10: enabling a filter flag never adds slots: the output with
`only_18plus = true` (respectively `only_first_dose = true`) is a
sublist of the output on the same input with that flag `false` and the
other flag unchanged. -/
theorem c10_flags_monotone (api_resp : Resp) :
    (∀ f : Bool, List.Sublist (check_viable_slots api_resp true f) (check_viable_slots api_resp false f)) ∧
    (∀ a : Bool, List.Sublist (check_viable_slots api_resp a true) (check_viable_slots api_resp a false)) := by
  constructor
  · intro f
    rw [check_viable_slots_eq, check_viable_slots_eq]
    unfold viableSlotsSpec
    refine flatMap_sublist _ _ _ (fun c => ?_)
    exact (List.monotone_filter_right c.sessions
      (fun s => sessionViable_age_mono f s)).map (mkSlot c)
  · intro a
    rw [check_viable_slots_eq, check_viable_slots_eq]
    unfold viableSlotsSpec
    refine flatMap_sublist _ _ _ (fun c => ?_)
    exact (List.monotone_filter_right c.sessions
      (fun s => sessionViable_dose_mono a s)).map (mkSlot c)

/-- `struct SlackPayload` of `src/main.rs` (lines 108-113). -/
structure SlackPayload where
  channel : String
  text : String
  username : String
deriving DecidableEq, Repr

/-- An HTTP response as far as this program inspects one: its status
code. -/
structure HttpResponse where
  status : Nat
deriving DecidableEq, Repr

/-- Outcome of the one GET issued by the fetcher: either a response
(status code and body text) or a transport error. -/
inductive HttpGetOutcome where
  | response (status : Nat) (body : String)
  | transportError
deriving DecidableEq, Repr

/-- `fetch_district_slots` (`src/main.rs` lines 54-78), with the network
and the JSON decoder passed in explicitly: `net` is the outcome of the
GET, `parse` models `serde_json::from_str` on the body.  On status 200
the body is decoded (a decode failure propagates as an error); any other
status returns the `Bad Return Code` error built at line 75, carrying
the status code.  The request URL (base, district id, date) only
addresses the request and is absorbed into `net`. -/
def fetch_district_slots (net : HttpGetOutcome) (parse : String → Option Resp)
    (district_id : String) : Except String Resp :=
  match net with
  | .transportError => .error "FetchError"
  | .response status body =>
    if status = 200 then
      match parse body with
      | some api_resp => .ok api_resp
      | none => .error "DecodeError"
    else .error ("Bad Return Code: " ++ toString status)

/-- The message template of `post_slot_to_slack` (`src/main.rs` lines
116-135). -/
def slotText (slot : Slot) : String :=
  ":large_green_circle: [Vaccine Slot]\n        Date: " ++ slot.date ++
    ",\n        Center: " ++ slot.center ++
    ",\n        Address: " ++ slot.address ++
    ",\n        Vaccine: " ++ slot.vaccine ++
    ",\n        Available Capacity: " ++ toString slot.available_capacity ++
    ",\n        1st Dose Capacity: " ++ toString slot.available_capacity_dose1 ++
    ",\n        2nd Dose Capacity: " ++ toString slot.available_capacity_dose2 ++
    ",\n        Min Age Limit: " ++ toString slot.min_age_limit ++
    ",\n        "

/-- The payload built by `post_slot_to_slack` (`src/main.rs` lines
137-141). -/
def slotPayload (slot : Slot) (channel : String) : SlackPayload :=
  { text := slotText slot, channel := channel, username := "Tux-Sudo CoWin Bot" }

/-- The payload built by `post_debug_to_slack` (`src/main.rs` lines
149-153). -/
def debugPayload (message channel : String) : SlackPayload :=
  { text := message, channel := channel, username := "Tux-Sudo CoWin Bot" }

/-- `post_slot_to_slack` (`src/main.rs` lines 115-146).  `send` is the
webhook transport for this one POST: it takes the JSON payload and
either delivers it (returning the endpoint's HTTP response) or fails
with a transport error.  As in the source, only `send()?` can fail: a
transport error propagates, while a delivered response is dropped
without its status being looked at, and `Ok(())` is returned.  The hook
URL only addresses the request and is absorbed into `send`. -/
def post_slot_to_slack (send : SlackPayload → Except Unit HttpResponse) (slot : Slot)
    (hook_url channel : String) : Except Unit Unit :=
  match send (slotPayload slot channel) with
  | .error e => .error e
  | .ok _ => .ok ()

/-- `post_debug_to_slack` (`src/main.rs` lines 148-157), same transport
convention as `post_slot_to_slack`. -/
def post_debug_to_slack (send : SlackPayload → Except Unit HttpResponse) (message : String)
    (hook_url channel : String) : Except Unit Unit :=
  match send (debugPayload message channel) with
  | .error e => .error e
  | .ok _ => .ok ()

/-- The `for slot in slots.iter()` loop of `main` (`src/main.rs` lines
191-198): posts each slot in order; `.expect` aborts the process on the
first failing POST.  `send i` is the transport outcome of the i-th POST
of the run.  Returns the payloads successfully delivered, in order, and
whether the loop ran to completion. -/
def notify_slots (send : Nat → SlackPayload → Except Unit HttpResponse)
    (hook ch : String) : Nat → List Slot → List SlackPayload × Bool
  | _, [] => ([], true)
  | i, slot :: rest =>
    match post_slot_to_slack (send i) slot hook ch with
    | .error _ => ([], false)
    | .ok _ =>
      let r := notify_slots send hook ch (i + 1) rest
      (slotPayload slot ch :: r.1, r.2)

/-- Command-line options of `main` (`struct Opts`, `src/main.rs` lines
159-183). -/
structure Opts where
  age_18_plus : Bool
  first_dose_only : Bool
  district_id : String
  slack_hook : String
  slack_main_channel : String
  slack_debug_channel : String
deriving DecidableEq, Repr

/-- `main` (`src/main.rs` lines 185-211): fetch, filter, post every
slot, then post the debug summary.  Every `.expect` aborts the run.
Returns the payloads successfully delivered to the webhook, in order,
and whether the run completed without aborting. -/
def runMain (net : HttpGetOutcome) (parse : String → Option Resp)
    (send : Nat → SlackPayload → Except Unit HttpResponse) (opts : Opts) :
    List SlackPayload × Bool :=
  match fetch_district_slots net parse opts.district_id with
  | .error _ => ([], false)
  | .ok api_resp =>
    let slots := check_viable_slots api_resp opts.age_18_plus opts.first_dose_only
    let r := notify_slots send opts.slack_hook opts.slack_main_channel 0 slots
    if r.2 then
      let output_str :=
        "Found " ++ toString slots.length ++ " viable slots for District ID: " ++ opts.district_id
      match post_debug_to_slack (send slots.length) output_str
          opts.slack_hook opts.slack_debug_channel with
      | .error _ => (r.1, false)
      | .ok _ => (r.1 ++ [debugPayload output_str opts.slack_debug_channel], true)
    else (r.1, false)

theorem notify_slots_all_ok (send : Nat → SlackPayload → Except Unit HttpResponse)
    (hook ch : String) (h : ∀ i p, ∃ r, send i p = .ok r) :
    ∀ (i : Nat) (slots : List Slot),
      notify_slots send hook ch i slots = (slots.map (fun s => slotPayload s ch), true) := by
  intro i slots
  induction slots generalizing i with
  | nil => rfl
  | cons s rest ih =>
    obtain ⟨r, hr⟩ := h i (slotPayload s ch)
    simp [notify_slots, post_slot_to_slack, hr, ih (i + 1)]

theorem notify_slots_abort (send : Nat → SlackPayload → Except Unit HttpResponse)
    (hook ch : String) :
    ∀ (slots : List Slot) (i k : Nat),
      (∀ j, j < k → ∀ p, ∃ r, send (i + j) p = .ok r) →
      (∀ p, send (i + k) p = .error ()) →
      k < slots.length →
      notify_slots send hook ch i slots =
        ((slots.take k).map (fun s => slotPayload s ch), false) := by
  intro slots
  induction slots with
  | nil =>
    intro i k _ _ hk
    simp at hk
  | cons s rest ih =>
    intro i k hbefore hfail hk
    cases k with
    | zero =>
      have hf := hfail (slotPayload s ch)
      rw [Nat.add_zero] at hf
      simp [notify_slots, post_slot_to_slack, hf]
    | succ k =>
      obtain ⟨r, hr⟩ := hbefore 0 (Nat.succ_pos k) (slotPayload s ch)
      rw [Nat.add_zero] at hr
      have ih2 := ih (i + 1) k
        (fun j hj p => by
          have h2 := hbefore (j + 1) (Nat.succ_lt_succ hj) p
          have he : i + (j + 1) = i + 1 + j := by omega
          rwa [he] at h2)
        (fun p => by
          have h2 := hfail p
          have he : i + (k + 1) = i + 1 + k := by omega
          rwa [he] at h2)
        (by simpa using Nat.lt_of_succ_lt_succ hk)
      simp [notify_slots, post_slot_to_slack, hr, ih2]

def cslot : Slot :=
  { center := "C", address := "A", date := "10-05-2021", available_capacity := 10,
    available_capacity_dose1 := 5, available_capacity_dose2 := 5, min_age_limit := 18,
    vaccine := "COVAXIN" }

def cslot2 : Slot := { cslot with date := "11-05-2021" }

/-- A webhook transport that always delivers and answers with status
500: the endpoint rejects the notification. -/
def respond500 : SlackPayload → Except Unit HttpResponse := fun _ => .ok { status := 500 }

/-- Claim C5 counterexample: the webhook endpoint answers the POST with
a non-success response (HTTP 500), yet `post_slot_to_slack` returns
`Ok(())`: the source never inspects the response status
(`send()?` at `src/main.rs` line 144 only fails on transport errors),
so a rejected POST does not cause a failure, contradicting the claim. -/
theorem c5_counterexample :
    post_slot_to_slack respond500 cslot "https://hooks.example/svc" "main" = .ok () ∧
      (500 : Nat) ≠ 200 ∧ (Except.ok () : Except Unit Unit) ≠ .error () :=
  ⟨rfl, by decide, fun h => Except.noConfusion h⟩

/-- Claim C5 (amended): only a network/transport error on the POST makes
`post_slot_to_slack` fail, and the run aborts on the first such failure
mid-loop, the already-sent notifications being neither rolled back nor
retried (the delivered trace is exactly the first `k` payloads); a
response delivered by the webhook endpoint, whatever its status, never
causes a failure. -/
theorem c5_transport_failure_aborts (send : Nat → SlackPayload → Except Unit HttpResponse)
    (hook ch : String) (slots : List Slot) (k : Nat) (hk : k < slots.length)
    (hbefore : ∀ j, j < k → ∀ p, ∃ r, send j p = .ok r)
    (hfail : ∀ p, send k p = .error ()) :
    post_slot_to_slack (send k) (slots.get ⟨k, hk⟩) hook ch = .error () ∧
      notify_slots send hook ch 0 slots =
        ((slots.take k).map (fun s => slotPayload s ch), false) ∧
      ∀ (resp : HttpResponse) (slot : Slot),
        post_slot_to_slack (fun _ => Except.ok resp) slot hook ch = .ok () := by
  refine ⟨?_, ?_, fun resp slot => rfl⟩
  · simp [post_slot_to_slack, hfail]
  · exact notify_slots_abort send hook ch slots 0 k
      (fun j hj p => by simpa using hbefore j hj p)
      (fun p => by simpa using hfail p) hk

/-- Transport that delivers the first POST and fails the second with a
network error. -/
def sendFailAt1 : Nat → SlackPayload → Except Unit HttpResponse :=
  fun i _ => if i = 0 then .ok { status := 200 } else .error ()

theorem c5_witness :
    1 < ([cslot, cslot2] : List Slot).length ∧
      notify_slots sendFailAt1 "https://hooks.example/svc" "main" 0 [cslot, cslot2] =
        ([slotPayload cslot "main"], false) :=
  ⟨by decide,
   by
     have h := c5_transport_failure_aborts sendFailAt1 "https://hooks.example/svc" "main"
       [cslot, cslot2] 1 (by decide)
       (fun j hj p => by
         cases j with
         | zero => exact ⟨{ status := 200 }, rfl⟩
         | succ n => exact absurd hj (by omega))
       (fun p => rfl)
     exact h.2.1⟩

/-- Claim C6: a response with any non-200 status makes
`fetch_district_slots` return the `Bad Return Code` error carrying the
status code instead of a parsed structure, and the run then delivers no
notification at all: the trace of `main` is empty and the run aborts. -/
theorem c6_non200_fails_no_notifications (status : Nat) (body : String)
    (parse : String → Option Resp) (send : Nat → SlackPayload → Except Unit HttpResponse)
    (opts : Opts) (h : status ≠ 200) :
    fetch_district_slots (.response status body) parse opts.district_id =
        .error ("Bad Return Code: " ++ toString status) ∧
      runMain (.response status body) parse send opts = ([], false) := by
  have hf : fetch_district_slots (.response status body) parse opts.district_id =
      .error ("Bad Return Code: " ++ toString status) := by
    simp [fetch_district_slots, h]
  exact ⟨hf, by simp [runMain, hf]⟩

def emptyResp : Resp := { centers := [] }

def parseEmpty : String → Option Resp := fun _ => some emptyResp

def sendOK : Nat → SlackPayload → Except Unit HttpResponse := fun _ _ => .ok { status := 200 }

def optsSample : Opts :=
  { age_18_plus := false, first_dose_only := false, district_id := "188",
    slack_hook := "https://hooks.example/svc", slack_main_channel := "main",
    slack_debug_channel := "debug" }

theorem c6_witness :
    (500 : Nat) ≠ 200 ∧
      (fetch_district_slots (.response 500 "err") parseEmpty optsSample.district_id =
          .error "Bad Return Code: 500" ∧
        runMain (.response 500 "err") parseEmpty sendOK optsSample = ([], false)) :=
  ⟨by decide,
   c6_non200_fails_no_notifications 500 "err" parseEmpty sendOK optsSample (by decide)⟩

/-- Claim C7: a run in which the fetch succeeds and every POST is
delivered sends the slot messages in order followed by exactly one
message to the debug channel, whose text is `Found N viable slots for
District ID: D` with `N` the length of the `check_viable_slots` output
and `D` the configured district id.  With zero centers the trace is just
that one debug message reading `Found 0 viable slots for District ID: D`
(see the witness). -/
theorem c7_debug_summary (net : HttpGetOutcome) (parse : String → Option Resp)
    (send : Nat → SlackPayload → Except Unit HttpResponse) (opts : Opts) (api_resp : Resp)
    (hfetch : fetch_district_slots net parse opts.district_id = .ok api_resp)
    (hsend : ∀ i p, ∃ r, send i p = .ok r) :
    runMain net parse send opts =
      ((check_viable_slots api_resp opts.age_18_plus opts.first_dose_only).map
          (fun s => slotPayload s opts.slack_main_channel) ++
        [debugPayload
          ("Found " ++
              toString (check_viable_slots api_resp opts.age_18_plus opts.first_dose_only).length ++
            " viable slots for District ID: " ++ opts.district_id)
          opts.slack_debug_channel],
       true) := by
  obtain ⟨rd, hrd⟩ := hsend
    (check_viable_slots api_resp opts.age_18_plus opts.first_dose_only).length
    (debugPayload
      ("Found " ++
          toString (check_viable_slots api_resp opts.age_18_plus opts.first_dose_only).length ++
        " viable slots for District ID: " ++ opts.district_id)
      opts.slack_debug_channel)
  simp [runMain, hfetch, notify_slots_all_ok send _ _ hsend, post_debug_to_slack, hrd]

theorem c7_witness :
    runMain (.response 200 "ok") parseEmpty sendOK optsSample =
      ([debugPayload "Found 0 viable slots for District ID: 188" "debug"], true) := by
  have h := c7_debug_summary (.response 200 "ok") parseEmpty sendOK optsSample emptyResp rfl
    (fun i p => ⟨{ status := 200 }, rfl⟩)
  exact h

end Cowin
